import Mathlib

/-!
Shallow embedding of the LUNA agent service
(`src/luna-project/luna-vm-real/luna-agent/main.py`) for checking the
natural-language specification against the code.

External collaborators (Selenium WebDriver, OpenCV, PIL, psutil, the
websocket transport) are modelled as per-request outcome parameters:
every call site that can raise in Python is given an `Except String`
outcome supplied by the environment, and every value read from a
collaborator (page title, element text, metrics) is supplied the same
way.  The control flow, the strings built, and the result dictionaries
are translated line by line from the source.
-/

namespace Luna

/-! ## Common: Python exceptions, truthiness, timestamps -/

/-- Decidable equality for `Except`, so concrete adapter outcomes can be
    compared by `decide`. -/
instance {ε α : Type} [DecidableEq ε] [DecidableEq α] :
    DecidableEq (Except ε α) := fun a b =>
  match a, b with
  | .ok x, .ok y =>
      if h : x = y then .isTrue (by rw [h])
      else .isFalse (fun hh => h (Except.ok.inj hh))
  | .error x, .error y =>
      if h : x = y then .isTrue (by rw [h])
      else .isFalse (fun hh => h (Except.error.inj hh))
  | .ok _, .error _ => .isFalse (fun hh => Except.noConfusion hh)
  | .error _, .ok _ => .isFalse (fun hh => Except.noConfusion hh)

/-- A FastAPI `HTTPException(status_code, detail)` as raised by the source. -/
inductive PyExc where
  | httpException (statusCode : Nat) (detail : String)
deriving DecidableEq

/-- Python `str(e)` of an `HTTPException` (Starlette renders it as
    `"<status_code>: <detail>"`); this is what `except Exception as e`
    blocks in the source stringify. -/
def excMessage : PyExc → String
  | .httpException c d => toString c ++ ": " ++ d

/-- Python truthiness of an `Optional[str]` parameter: `None` and the
    empty string are falsy, any other string is truthy.  The source
    guards like `if not filename:` and `if action == "click" and selector:`
    use exactly this test. -/
def truthy : Option String → Bool
  | none => false
  | some s => !(s == "")

/-- A wall-clock instant as `datetime.now()` exposes it to
    `strftime("%Y%m%d_%H%M%S")`.  Fields carry the ranges `datetime`
    guarantees (year 1..9999, month 1..12, and so on). -/
structure Timestamp where
  year : Nat
  month : Nat
  day : Nat
  hour : Nat
  minute : Nat
  second : Nat
deriving DecidableEq

/-- The decimal digit character for `n % 10`; used to spell out the
    zero-padded fields `strftime` produces. -/
def digitChar (n : Nat) : Char :=
  match n % 10 with
  | 0 => '0' | 1 => '1' | 2 => '2' | 3 => '3' | 4 => '4'
  | 5 => '5' | 6 => '6' | 7 => '7' | 8 => '8' | _ => '9'

/-- Python `datetime.now().strftime("%Y%m%d_%H%M%S")`: four zero-padded
    year digits, two digits each for month/day, an underscore, then two
    digits each for hour/minute/second.  For the in-range field values
    `datetime` produces, digit extraction by division agrees with the
    zero-padded decimal rendering. -/
def fmtTimestamp (t : Timestamp) : String :=
  String.mk
    [digitChar (t.year / 1000), digitChar (t.year / 100),
     digitChar (t.year / 10), digitChar t.year,
     digitChar (t.month / 10), digitChar t.month,
     digitChar (t.day / 10), digitChar t.day,
     '_',
     digitChar (t.hour / 10), digitChar t.hour,
     digitChar (t.minute / 10), digitChar t.minute,
     digitChar (t.second / 10), digitChar t.second]

/-- Recognizer for the `YYYYMMDD_HHMMSS` character shape: eight decimal
    digits, an underscore, six decimal digits. -/
def tsChars : List Char → Bool
  | [y1, y2, y3, y4, mo1, mo2, d1, d2, sep, h1, h2, mi1, mi2, s1, s2] =>
      (sep == '_') &&
      ([y1, y2, y3, y4, mo1, mo2, d1, d2, h1, h2, mi1, mi2, s1, s2].all Char.isDigit)
  | _ => false

/-- String-level form of `tsChars`. -/
def tsPattern (s : String) : Bool :=
  tsChars s.data

/-! ## Screenshot adapter (`LunaAgent.take_screenshot`, main.py lines 160-185) -/

/-- The screenshots directory fixed in `LunaAgent.__init__`. -/
def screenshotsDir : String := "/opt/luna-agent/screenshots"

/-- The placeholder image built by the no-driver branch:
    `Image.new('RGB', (1920, 1080), color='blue')` plus
    `draw.text((960, 540), "Luna Agent Screenshot", fill='white', anchor='mm')`. -/
structure PlaceholderImage where
  width : Nat
  height : Nat
  color : String
  label : String
  fill : String
  pos : Nat × Nat
deriving DecidableEq

/-- Which save call the screenshot body performed: the Selenium
    `driver.save_screenshot(str(filepath))` call, or the PIL placeholder
    save.  Both write to the path the adapter returns. -/
inductive SaveKind where
  | driverShot
  | placeholder (img : PlaceholderImage)
deriving DecidableEq

/-- Successful outcome of `take_screenshot`: the returned path (which is
    also the path written) and the save performed. -/
structure ShotOk where
  path : String
  save : SaveKind
deriving DecidableEq

/-- The filename chosen by lines 163-165: a supplied truthy filename is
    used as-is; otherwise `f"screenshot_{timestamp}.png"`. -/
def shotFilename (now : Timestamp) (filename : Option String) : String :=
  if truthy filename then filename.getD ""
  else "screenshot_" ++ fmtTimestamp now ++ ".png"

/-- `LunaAgent.take_screenshot` (main.py lines 160-185).  `driver` is
    `self.driver` (present or `None`); `saveOutcome` is the outcome of
    the save call (Selenium or PIL) made in the body.  On any exception
    the source re-raises `HTTPException(status_code=500, detail=str(e))`,
    so a failed save propagates as an exception rather than being turned
    into a result value. -/
def take_screenshot (driver : Option Unit) (now : Timestamp)
    (saveOutcome : Except String Unit) (filename : Option String) :
    Except PyExc ShotOk :=
  let fname := shotFilename now filename
  let filepath := screenshotsDir ++ "/" ++ fname
  let save : SaveKind :=
    match driver with
    | some _ => .driverShot
    | none => .placeholder
        { width := 1920, height := 1080, color := "blue",
          label := "Luna Agent Screenshot", fill := "white", pos := (960, 540) }
  match saveOutcome with
  | .error e => .error (.httpException 500 e)
  | .ok () => .ok { path := filepath, save := save }

/-! ## Web-automation adapter (`LunaAgent.web_automation_task`, main.py lines 187-243) -/

/-- Per-request behaviour of the page element a wait resolves to:
    outcomes of `element.click()`, `element.clear()`,
    `element.send_keys(value)`, and the value of `element.text`. -/
structure ElemB where
  clickOutcome : Except String Unit
  clearOutcome : Except String Unit
  sendKeysOutcome : Except String Unit
  text : String

/-- Per-request behaviour of `self.driver`: the outcome of
    `driver.get(url)`, of the two `WebDriverWait(...).until(...)` calls
    (element-to-be-clickable and presence-of-element), and the value of
    `driver.title`. -/
structure DriverB where
  navigateOutcome : Except String Unit
  waitClickable : Except String ElemB
  waitPresent : Except String ElemB
  titleVal : String

/-- Environment of one `web_automation_task` call: `self.driver` (absent
    or present with its behaviour) and the collaborator inputs of the
    trailing `take_screenshot` call (its `datetime.now()` and save
    outcome). -/
structure WebEnv where
  driver : Option DriverB
  shotNow : Timestamp
  shotSave : Except String Unit

/-- The result dictionary `web_automation_task` returns; absent dict
    keys are `none`. -/
structure WebResult where
  url : String
  action : String
  success : Bool
  message : Option String
  extracted_text : Option String
  title : Option String
  screenshot : Option String
  error : Option String
deriving DecidableEq

/-- A page-element interaction performed on the driver's current page
    (the calls the `click`/`type`/`extract_text` branches make on the
    resolved element). -/
inductive WebInteraction where
  | clicked (selector : String)
  | cleared (selector : String)
  | typed (selector : String) (value : String)
  | readText (selector : String)
deriving DecidableEq

/-- The failure dictionary built by the `except` block of
    `web_automation_task` (lines 236-243): only `url`, `action`,
    `success: False` and `error`. -/
def webFail (url action e : String) : WebResult :=
  { url := url, action := action, success := false, message := none,
    extracted_text := none, title := none, screenshot := none, error := some e }

/-- The `try` block of `web_automation_task` (lines 191-234), together
    with the list of page-element interactions performed before the body
    returned or raised.  Mirrors the source order: driver check (raises
    `HTTPException(500, "WebDriver not available")`), `driver.get(url)`,
    the `action` branch chain with Python-truthiness guards, then the
    trailing `take_screenshot()` folded into the result. -/
def webTry (env : WebEnv) (url action : String)
    (selector value : Option String) :
    Except String WebResult × List WebInteraction :=
  match env.driver with
  | none => (.error (excMessage (.httpException 500 "WebDriver not available")), [])
  | some d =>
    match d.navigateOutcome with
    | .error e => (.error e, [])
    | .ok () =>
      let base : WebResult :=
        { url := url, action := action, success := true, message := none,
          extracted_text := none, title := none, screenshot := none, error := none }
      let sel := selector.getD ""
      let step : Except String WebResult × List WebInteraction :=
        if action == "click" && truthy selector then
          match d.waitClickable with
          | .error e => (.error e, [])
          | .ok el =>
            match el.clickOutcome with
            | .error e => (.error e, [.clicked sel])
            | .ok () =>
              (.ok { base with message := some ("Clicked element: " ++ sel) },
               [.clicked sel])
        else if action == "type" && truthy selector && truthy value then
          match d.waitPresent with
          | .error e => (.error e, [])
          | .ok el =>
            match el.clearOutcome with
            | .error e => (.error e, [.cleared sel])
            | .ok () =>
              match el.sendKeysOutcome with
              | .error e => (.error e, [.cleared sel, .typed sel (value.getD "")])
              | .ok () =>
                let msg := "Typed '" ++ value.getD "" ++ "' into " ++ sel
                (.ok { base with message := some msg },
                 [.cleared sel, .typed sel (value.getD "")])
        else if action == "extract_text" && truthy selector then
          match d.waitPresent with
          | .error e => (.error e, [])
          | .ok el =>
            let msg := "Extracted text from " ++ sel
            (.ok { base with extracted_text := some el.text, message := some msg },
             [.readText sel])
        else if action == "get_title" then
          let msg := "Page title: " ++ d.titleVal
          (.ok { base with title := some d.titleVal, message := some msg }, [])
        else
          (.ok base, [])
      match step with
      | (.error e, tr) => (.error e, tr)
      | (.ok r, tr) =>
        match take_screenshot (some ()) env.shotNow env.shotSave none with
        | .error pe => (.error (excMessage pe), tr)
        | .ok o => (.ok { r with screenshot := some o.path }, tr)

/-- `LunaAgent.web_automation_task` (main.py lines 187-243): run the
    `try` block; on any exception return the failure dictionary with
    `success: False` and the stringified exception. -/
def web_automation_task (env : WebEnv) (url action : String)
    (selector value : Option String) :
    WebResult × List WebInteraction :=
  match webTry env url action selector value with
  | (.ok r, tr) => (r, tr)
  | (.error e, tr) => (webFail url action e, tr)

/-! ## Vision adapter (`LunaAgent.computer_vision_task`, main.py lines 245-300) -/

/-- One contour found by `cv2.findContours` on the red mask, as the
    adapter consumes it: its `cv2.contourArea` and its
    `cv2.boundingRect` `(x, y, w, h)`. -/
structure Contour where
  rect : Nat × Nat × Nat × Nat
  area : Nat
deriving DecidableEq

/-- One entry of the `detected_objects` list the adapter builds. -/
structure DetectedObject where
  objType : String
  bbox : Nat × Nat × Nat × Nat
  area : Nat
deriving DecidableEq

/-- The result dictionary `computer_vision_task` returns; absent dict
    keys are `none`. -/
structure VisionResult where
  task : String
  success : Bool
  detected_objects : Option (List DetectedObject)
  message : Option String
  extracted_text : Option String
  found_elements : Option (List DetectedObject)
  error : Option String
deriving DecidableEq

/-- Environment of one `computer_vision_task` call.  `regionsOutcome`
    is the combined outcome of the `detect_objects` collaborator
    pipeline on this request's bytes (`cv2.imdecode`, `cv2.cvtColor` to
    HSV, `cv2.inRange` with the fixed red bounds, `cv2.findContours`):
    either the contour list, or the exception message (for example
    `cvtColor` raising because `imdecode` returned `None` on
    undecodable bytes).  `grayOutcome` is the outcome of the
    `extract_text` branch's `cv2.cvtColor` to grayscale. -/
structure VisionEnv where
  regionsOutcome : Except String (List Contour)
  grayOutcome : Except String Unit

/-- The `detected_objects` entry built for a contour (lines 270-275). -/
def mkObj (c : Contour) : DetectedObject :=
  { objType := "red_object", bbox := c.rect, area := c.area }

/-- The `try` block of `computer_vision_task` (lines 249-292): branch on
    the task name; `detect_objects` keeps exactly the contours whose
    area is strictly greater than 100 (`if area > 100`, line 269). -/
def visionTry (env : VisionEnv) (task : String) : Except String VisionResult :=
  if task == "detect_objects" then
    match env.regionsOutcome with
    | .error e => .error e
    | .ok cs =>
      let objects := (cs.filter fun c => 100 < c.area).map mkObj
      .ok { task := task, success := true,
            detected_objects := some objects,
            message := some ("Detected " ++ toString objects.length ++ " red objects"),
            extracted_text := none, found_elements := none, error := none }
  else if task == "extract_text" then
    match env.grayOutcome with
    | .error e => .error e
    | .ok () =>
      .ok { task := task, success := true, detected_objects := none,
            message := some "Text extraction completed (OCR not implemented)",
            extracted_text := some "Sample extracted text",
            found_elements := none, error := none }
  else if task == "find_ui_element" then
    .ok { task := task, success := true, detected_objects := none,
          message := some "UI element detection completed",
          extracted_text := none, found_elements := some [], error := none }
  else
    .ok { task := task, success := true, detected_objects := none,
          message := none, extracted_text := none, found_elements := none,
          error := none }

/-- `LunaAgent.computer_vision_task` (main.py lines 245-300): run the
    `try` block; on any exception return `{"task": task,
    "success": False, "error": str(e)}`. -/
def computer_vision_task (env : VisionEnv) (task : String) : VisionResult :=
  match visionTry env task with
  | .ok r => r
  | .error e =>
      { task := task, success := false, detected_objects := none,
        message := none, extracted_text := none, found_elements := none,
        error := some e }

/-! ## Session state, status (`LunaAgent.__init__`, `get_system_info`) and
    the operation-level state machine -/

/-- The `psutil.virtual_memory()` fields the status body reads. -/
structure MemoryInfo where
  total : Nat
  available : Nat
  percent : Nat
deriving DecidableEq

/-- The `psutil.disk_usage('/')` fields the status body reads. -/
structure DiskInfo where
  total : Nat
  free : Nat
  percent : Nat
deriving DecidableEq

/-- The `system` sub-dictionary of the status response, as delivered by
    psutil on one request. -/
structure Metrics where
  cpu_percent : Nat
  memory : MemoryInfo
  disk : DiskInfo
deriving DecidableEq

/-- The dictionary `get_system_info` returns; absent keys are `none`. -/
structure SystemInfo where
  luna_version : Option String
  status : Option String
  capabilities : Option (List String)
  uptime : Option Nat
  system : Option Metrics
  active_tasks : Option Nat
  websocket_connections : Option Nat
  error : Option String
deriving DecidableEq

/-- The process-wide mutable fields of the `LunaAgent` singleton that
    the handlers read or write.  `websocket_connections` is a Python
    list of connection handles, modelled by handle ids;
    `active_tasks` is the task dictionary, which no code path ever
    populates. -/
structure AgentState where
  version : String
  status : String
  capabilities : List String
  active_tasks : List String
  websocket_connections : List Nat
  driver : Option DriverB

/-- `LunaAgent.__init__` (main.py lines 59-74): the fixed capability
    list, status `initializing`, no driver, empty task and connection
    collections. -/
def initState : AgentState :=
  { version := "1.0.0", status := "initializing",
    capabilities :=
      ["web_automation", "computer_vision", "task_scheduling",
       "api_integration", "screen_capture", "mouse_keyboard_control"],
    active_tasks := [], websocket_connections := [], driver := none }

/-- `LunaAgent.get_system_info` (main.py lines 302-328).  `ps` is the
    combined outcome of the `psutil` calls in the dictionary literal;
    if any of them raises, no key of the partially-built literal
    escapes and the `except` block returns `{"error": str(e)}`. -/
def get_system_info (st : AgentState) (ps : Except String Metrics)
    (now : Nat) : SystemInfo :=
  match ps with
  | .ok m =>
      { luna_version := some st.version, status := some st.status,
        capabilities := some st.capabilities, uptime := some now,
        system := some m, active_tasks := some st.active_tasks.length,
        websocket_connections := some st.websocket_connections.length,
        error := none }
  | .error e =>
      { luna_version := none, status := none, capabilities := none,
        uptime := none, system := none, active_tasks := none,
        websocket_connections := none, error := some e }

/-- One externally-triggered operation on the agent singleton: an
    adapter call (each carrying its per-request collaborator
    environment), a status request, a websocket connection opening or
    closing, or the startup initialization.  Adapter and status
    handlers never write the singleton; the websocket endpoint appends
    on accept and removes in its `finally`; startup sets the driver and
    the status string. -/
inductive AgentOp where
  | screenshotCall (filename : Option String) (now : Timestamp)
      (save : Except String Unit)
  | webAutomateCall (url action : String) (selector value : Option String)
      (env : WebEnv)
  | visionAnalyzeCall (task : String) (env : VisionEnv)
  | statusCall (ps : Except String Metrics) (now : Nat)
  | wsConnect (c : Nat)
  | wsDisconnect (c : Nat)
  | appStartup (d : Option DriverB) (ok : Bool)

/-- The state mutation each operation performs (main.py: line 411
    `append`, line 431 `remove`, lines 94-99 startup status, line 119
    driver assignment).  Python `list.remove` deletes the first
    occurrence, i.e. `List.erase`.  All other handlers leave the
    singleton unchanged. -/
def applyOp (st : AgentState) : AgentOp → AgentState
  | .wsConnect c =>
      { st with websocket_connections := st.websocket_connections ++ [c] }
  | .wsDisconnect c =>
      { st with websocket_connections := st.websocket_connections.erase c }
  | .appStartup d ok =>
      { st with driver := d, status := if ok then "ready" else "error" }
  | _ => st

/-- Run a sequence of operations from a state. -/
def runOps (st : AgentState) (ops : List AgentOp) : AgentState :=
  ops.foldl applyOp st

/-- An operation is admissible in a state when, if it is the `finally`
    removal of a websocket connection, that connection is currently in
    the list (the endpoint only ever removes the handle it appended). -/
def opOk (st : AgentState) : AgentOp → Bool
  | .wsDisconnect c => decide (c ∈ st.websocket_connections)
  | _ => true

/-- A sequence of operations is a valid run when every step is
    admissible in the state it executes in. -/
def validRun (st : AgentState) : List AgentOp → Bool
  | [] => true
  | op :: ops => opOk st op && validRun (applyOp st op) ops

/-- Number of websocket connections opened in a run. -/
def wsOpens : List AgentOp → Nat
  | [] => 0
  | .wsConnect _ :: ops => wsOpens ops + 1
  | _ :: ops => wsOpens ops

/-- Number of websocket connections closed in a run. -/
def wsCloses : List AgentOp → Nat
  | [] => 0
  | .wsDisconnect _ :: ops => wsCloses ops + 1
  | _ :: ops => wsCloses ops

/-! ## Streaming channel message handling (`websocket_endpoint`,
    main.py lines 407-431) -/

/-- A JSON value as `json.loads` yields it (numbers collapsed to
    integers for this model). -/
inductive JVal where
  | null
  | bool (b : Bool)
  | num (n : Int)
  | str (s : String)
  | arr (items : List JVal)
  | obj (fields : List (String × JVal))

/-- The Python type name of a decoded JSON value, as it appears in an
    `AttributeError` message. -/
def pyTypeName : JVal → String
  | .null => "NoneType"
  | .bool _ => "bool"
  | .num _ => "int"
  | .str _ => "str"
  | .arr _ => "list"
  | .obj _ => "dict"

mutual

/-- Python `repr` of a json-loaded value, used by `str` for values
    inside containers. -/
def pyRepr : JVal → String
  | .null => "None"
  | .bool true => "True"
  | .bool false => "False"
  | .num n => toString n
  | .str s => "'" ++ s ++ "'"
  | .arr items => "[" ++ pyReprItems items ++ "]"
  | .obj fields => "\x7b" ++ pyReprFields fields ++ "\x7d"

/-- Comma-separated reprs of a list's items. -/
def pyReprItems : List JVal → String
  | [] => ""
  | [v] => pyRepr v
  | v :: vs => pyRepr v ++ ", " ++ pyReprItems vs

/-- Comma-separated reprs of a dict's entries. -/
def pyReprFields : List (String × JVal) → String
  | [] => ""
  | [(k, v)] => "'" ++ k ++ "': " ++ pyRepr v
  | (k, v) :: fs => "'" ++ k ++ "': " ++ pyRepr v ++ ", " ++ pyReprFields fs

end

/-- Python `str` of a json-loaded value, as an f-string interpolates
    it: a string is inserted verbatim, anything else by its repr. -/
def pyStr : JVal → String
  | .str s => s
  | v => pyRepr v

/-- The `message.get('message', 'Unknown')` step (main.py line 421).
    Only a dict has `.get`; on any other decoded value Python raises
    `AttributeError`, which escapes the message loop. -/
def jGetMessage : JVal → Except String JVal
  | .obj fields => .ok ((fields.lookup "message").getD (.str "Unknown"))
  | v => .error ("AttributeError: '" ++ pyTypeName v ++
      "' object has no attribute 'get'")

/-- The reply dictionary built for an inbound message (lines 419-424). -/
structure WsReply where
  replyType : String
  message : String
  timestamp : String
  status : String
deriving DecidableEq

/-- Handling of one decoded inbound message while the channel is open
    (main.py lines 415-426): build and send exactly one reply, unless
    the `.get` call raises, in which case the exception leaves the
    `while` loop, no reply is sent, and the `finally` removes the
    connection. -/
def handleWsMessage (status now : String) (decoded : JVal) :
    Except String WsReply :=
  match jGetMessage decoded with
  | .error e => .error e
  | .ok v =>
      .ok { replyType := "luna_response",
            message := "🌙 Luna received: " ++ pyStr v,
            timestamp := now, status := status }

/-- Number of replies the channel sends for one inbound message: one
    on the normal path, zero when the handler raises. -/
def wsRepliesSent (r : Except String WsReply) : Nat :=
  match r with
  | .ok _ => 1
  | .error _ => 0

end Luna

namespace Luna

/-- Every character `digitChar` produces is a decimal digit. -/
theorem digitChar_isDigit (n : Nat) : (digitChar n).isDigit = true := by
  unfold digitChar
  split <;> decide

/-- The `strftime` output always matches the `YYYYMMDD_HHMMSS` shape. -/
theorem tsPattern_fmtTimestamp (t : Timestamp) : tsPattern (fmtTimestamp t) = true := by
  simp [tsPattern, fmtTimestamp, tsChars, digitChar_isDigit]

/-- The absent optional parameter is falsy. -/
theorem truthy_none : truthy none = false := rfl

/-- No operation writes the capability list. -/
theorem applyOp_capabilities (st : AgentState) (op : AgentOp) :
    (applyOp st op).capabilities = st.capabilities := by
  cases op <;> rfl

/-- Running any operation sequence leaves the capability list unchanged. -/
theorem runOps_capabilities (ops : List AgentOp) :
    ∀ st : AgentState, (runOps st ops).capabilities = st.capabilities := by
  induction ops with
  | nil => intro st; rfl
  | cons op ops ih =>
      intro st
      exact (ih (applyOp st op)).trans (applyOp_capabilities st op)

/-- C10.  If the psutil metrics calls raise during a status request,
    `get_system_info` still returns a dictionary, and that dictionary
    carries only the error string: version, status, capabilities,
    uptime, system metrics and the task/connection counts are all
    absent. -/
theorem claim_C10_status_error_shape (st : AgentState) (e : String) (now : Nat) :
    get_system_info st (.error e) now =
      { luna_version := none, status := none, capabilities := none,
        uptime := none, system := none, active_tasks := none,
        websocket_connections := none, error := some e } := rfl

/-- C4.  After any sequence of operations from the initial state, a
    status request on which the metrics provider succeeds reports the
    `capabilities` field equal to the fixed declared list, with the
    same elements in the same order. -/
theorem claim_C4_capabilities_fixed (ops : List AgentOp) (m : Metrics) (now : Nat) :
    (get_system_info (runOps initState ops) (.ok m) now).capabilities =
      some ["web_automation", "computer_vision", "task_scheduling",
            "api_integration", "screen_capture", "mouse_keyboard_control"] := by
  simp [get_system_info, runOps_capabilities, initState]

/-- C2.  When `self.driver` is absent, `web_automation_task` returns a
    result with `success = false` and the stringified
    `HTTPException(500, "WebDriver not available")` as the error, for
    every action (including `get_title`); no exception leaves the
    adapter and no page interaction happens. -/
theorem claim_C2_no_driver_returns_failure (t : Timestamp)
    (save : Except String Unit) (url action : String)
    (sel val : Option String) :
    web_automation_task { driver := none, shotNow := t, shotSave := save }
        url action sel val =
      (webFail url action "500: WebDriver not available", []) ∧
    (webFail url action "500: WebDriver not available").success = false ∧
    (webFail url action "500: WebDriver not available").error =
      some "500: WebDriver not available" :=
  ⟨rfl, rfl, rfl⟩

/-- C9.  With the driver absent and the save succeeding,
    `take_screenshot` does not fail: it writes the blue 1920x1080
    placeholder labelled "Luna Agent Screenshot" under the screenshots
    directory and returns exactly the path a driver screenshot of the
    same request would return. -/
theorem claim_C9_placeholder_screenshot (t : Timestamp) (fn : Option String) :
    take_screenshot none t (.ok ()) fn =
      .ok { path := screenshotsDir ++ "/" ++ shotFilename t fn,
            save := .placeholder
              { width := 1920, height := 1080, color := "blue",
                label := "Luna Agent Screenshot", fill := "white",
                pos := (960, 540) } } ∧
    (take_screenshot none t (.ok ()) fn).map ShotOk.path =
      (take_screenshot (some ()) t (.ok ()) fn).map ShotOk.path :=
  ⟨rfl, rfl⟩

/-- C5 counterexample.  A caller-supplied empty filename is falsy for
    the `if not filename:` guard, so the adapter does not use the
    supplied name: it writes the timestamp-derived name instead,
    refuting "when the caller supplies a filename, that exact filename
    is used". -/
theorem claim_C5_counterexample :
    (take_screenshot (some ()) ⟨2024, 1, 2, 3, 4, 5⟩ (.ok ())
        (some "")).map ShotOk.path =
      .ok "/opt/luna-agent/screenshots/screenshot_20240102_030405.png" ∧
    (take_screenshot (some ()) ⟨2024, 1, 2, 3, 4, 5⟩ (.ok ())
        (some "")).map ShotOk.path ≠
      .ok "/opt/luna-agent/screenshots/" := by
  constructor
  · rfl
  · decide

/-- C5 as amended.  With the save succeeding: a call with no filename
    returns (and writes) `screenshot_YYYYMMDD_HHMMSS.png` under the
    screenshots directory, whose timestamp part matches the
    eight-digits, underscore, six-digits shape; a caller-supplied
    non-empty filename is used exactly. -/
theorem claim_C5_filename_pattern (d : Option Unit) (t : Timestamp)
    (f : String) (hf : f ≠ "") :
    (take_screenshot d t (.ok ()) none).map ShotOk.path =
      .ok (screenshotsDir ++ "/" ++ ("screenshot_" ++ fmtTimestamp t ++ ".png")) ∧
    tsPattern (fmtTimestamp t) = true ∧
    (take_screenshot d t (.ok ()) (some f)).map ShotOk.path =
      .ok (screenshotsDir ++ "/" ++ f) := by
  refine ⟨?_, tsPattern_fmtTimestamp t, ?_⟩
  · cases d <;> rfl
  · cases d <;> simp [take_screenshot, shotFilename, truthy, hf, Except.map]

/-- C5 witness: the amended statement at a concrete timestamp and the
    concrete filename `shot.png`. -/
theorem claim_C5_witness :
    (take_screenshot (some ()) ⟨2024, 1, 2, 3, 4, 5⟩ (.ok ()) none).map
        ShotOk.path =
      .ok (screenshotsDir ++ "/" ++
        ("screenshot_" ++ fmtTimestamp ⟨2024, 1, 2, 3, 4, 5⟩ ++ ".png")) ∧
    tsPattern (fmtTimestamp ⟨2024, 1, 2, 3, 4, 5⟩) = true ∧
    (take_screenshot (some ()) ⟨2024, 1, 2, 3, 4, 5⟩ (.ok ())
        (some "shot.png")).map ShotOk.path =
      .ok (screenshotsDir ++ "/" ++ "shot.png") :=
  claim_C5_filename_pattern (some ()) ⟨2024, 1, 2, 3, 4, 5⟩ "shot.png" (by decide)

/-- C1 counterexample.  The screenshot adapter does not convert a
    failing save into a `success = false` result: with the driver
    present and the save call raising, `take_screenshot` propagates an
    `HTTPException(500, ...)` to its caller, refuting the claim for the
    screenshot adapter. -/
theorem claim_C1_counterexample :
    take_screenshot (some ()) ⟨2024, 1, 2, 3, 4, 5⟩ (.error "disk full") none =
      .error (.httpException 500 "disk full") := rfl

/-- C1 as amended.  The web-automate and vision-analyze adapters catch
    every failure of their `try` blocks and return a result with
    `success = false` and the error string; the screenshot adapter
    instead re-raises every failure as an `HTTPException(500, str(e))`
    that propagates to its caller. -/
theorem claim_C1_adapter_failure_policy :
    (∀ (env : WebEnv) (url action : String) (sel val : Option String)
        (e : String) (tr : List WebInteraction),
        webTry env url action sel val = (.error e, tr) →
        web_automation_task env url action sel val = (webFail url action e, tr) ∧
        (webFail url action e).success = false ∧
        (webFail url action e).error = some e) ∧
    (∀ (env : VisionEnv) (task e : String),
        visionTry env task = .error e →
        computer_vision_task env task =
          { task := task, success := false, detected_objects := none,
            message := none, extracted_text := none, found_elements := none,
            error := some e }) ∧
    (∀ (d : Option Unit) (t : Timestamp) (fn : Option String) (e : String),
        take_screenshot d t (.error e) fn = .error (.httpException 500 e)) := by
  refine ⟨?_, ?_, ?_⟩
  · intro env url action sel val e tr h
    exact ⟨by simp [web_automation_task, h], rfl, rfl⟩
  · intro env task e h
    simp [computer_vision_task, h]
  · intro d t fn e
    rfl

/-- C1 witness: the amended statement at a driverless web request, an
    undecodable vision request, and a failing screenshot save. -/
theorem claim_C1_witness :
    (web_automation_task
        { driver := none, shotNow := ⟨2024, 1, 2, 3, 4, 5⟩, shotSave := .ok () }
        "https://example.com" "click" (some "#a") none =
      (webFail "https://example.com" "click" "500: WebDriver not available", []) ∧
      (webFail "https://example.com" "click"
        "500: WebDriver not available").success = false ∧
      (webFail "https://example.com" "click"
        "500: WebDriver not available").error =
        some "500: WebDriver not available") ∧
    (computer_vision_task
        { regionsOutcome := .error "decode failed", grayOutcome := .ok () }
        "detect_objects" =
      { task := "detect_objects", success := false, detected_objects := none,
        message := none, extracted_text := none, found_elements := none,
        error := some "decode failed" }) ∧
    (take_screenshot (some ()) ⟨2024, 1, 2, 3, 4, 5⟩ (.error "disk full") none =
      .error (.httpException 500 "disk full")) :=
  ⟨claim_C1_adapter_failure_policy.1 _ "https://example.com" "click"
      (some "#a") none "500: WebDriver not available" [] rfl,
   claim_C1_adapter_failure_policy.2.1 _ "detect_objects" "decode failed" rfl,
   claim_C1_adapter_failure_policy.2.2 (some ()) ⟨2024, 1, 2, 3, 4, 5⟩ none "disk full"⟩

/-- C3 counterexample.  A mask region of area exactly 100 is at least
    100 pixels, yet the `if area > 100` filter discards it:
    `detected_objects` comes back empty, refuting "included if and only
    if its pixel area is at least 100". -/
theorem claim_C3_counterexample :
    (computer_vision_task
        { regionsOutcome := .ok [{ rect := (0, 0, 10, 10), area := 100 }],
          grayOutcome := .ok () } "detect_objects").detected_objects =
      some [] ∧
    100 ≤ ({ rect := (0, 0, 10, 10), area := 100 } : Contour).area :=
  ⟨rfl, by decide⟩

/-- C3 as amended.  For a successfully decoded image, `detect_objects`
    reports exactly the mask regions whose area strictly exceeds 100,
    each with its bounding box and area; regions of area 100 or below
    are discarded. -/
theorem claim_C3_area_filter (cs : List Contour) (g : Except String Unit) :
    (computer_vision_task { regionsOutcome := .ok cs, grayOutcome := g }
        "detect_objects").success = true ∧
    (computer_vision_task { regionsOutcome := .ok cs, grayOutcome := g }
        "detect_objects").detected_objects =
      some ((cs.filter fun c => 100 < c.area).map mkObj) ∧
    ∀ c, c ∈ cs →
      ((mkObj c ∈ (cs.filter fun c => 100 < c.area).map mkObj) ↔
        100 < c.area) := by
  refine ⟨rfl, rfl, ?_⟩
  intro c hc
  constructor
  · intro hmem
    obtain ⟨c', hc', he⟩ := List.mem_map.mp hmem
    obtain ⟨_, hlt⟩ := List.mem_filter.mp hc'
    have harea : c'.area = c.area := congrArg DetectedObject.area he
    have := of_decide_eq_true hlt
    omega
  · intro hlt
    exact List.mem_map.mpr
      ⟨c, List.mem_filter.mpr ⟨hc, decide_eq_true hlt⟩, rfl⟩

/-- C3 witness: the amended statement at a single region of area 150,
    which is reported. -/
theorem claim_C3_witness :
    (computer_vision_task
        { regionsOutcome := .ok [{ rect := (1, 2, 3, 4), area := 150 }],
          grayOutcome := .ok () } "detect_objects").success = true ∧
    mkObj { rect := (1, 2, 3, 4), area := 150 } ∈
      (([({ rect := (1, 2, 3, 4), area := 150 } : Contour)].filter
          fun c => 100 < c.area).map mkObj) :=
  ⟨(claim_C3_area_filter [{ rect := (1, 2, 3, 4), area := 150 }] (.ok ())).1,
   ((claim_C3_area_filter [{ rect := (1, 2, 3, 4), area := 150 }] (.ok ())).2.2
      { rect := (1, 2, 3, 4), area := 150 } (by decide)).mpr (by decide)⟩

/-- C6.  For an action that matches none of the handled branches
    (`click`/`type`/`extract_text` with their truthy required
    parameters, or `get_title`), with the driver present, navigation
    succeeding and the trailing screenshot succeeding, the adapter
    performs no page-element interaction and returns `success = true`
    with only the navigation fields and the screenshot path. -/
theorem claim_C6_unknown_action_noop (d : DriverB) (t : Timestamp)
    (url action : String) (sel val : Option String)
    (h1 : ¬(action = "click" ∧ truthy sel = true))
    (h2 : ¬((action = "type" ∧ truthy sel = true) ∧ truthy val = true))
    (h3 : ¬(action = "extract_text" ∧ truthy sel = true))
    (h4 : ¬(action = "get_title"))
    (hnav : d.navigateOutcome = .ok ()) :
    web_automation_task { driver := some d, shotNow := t, shotSave := .ok () }
        url action sel val =
      ({ url := url, action := action, success := true, message := none,
         extracted_text := none, title := none,
         screenshot := some (screenshotsDir ++ "/" ++
           ("screenshot_" ++ fmtTimestamp t ++ ".png")),
         error := none }, []) := by
  simp [web_automation_task, webTry, hnav, h1, h2, h3, h4,
    take_screenshot, shotFilename, truthy_none]

/-- C6 witness: the statement at the unhandled action `scroll`. -/
theorem claim_C6_witness :
    web_automation_task
        { driver := some ⟨.ok (), .error "unused", .error "unused", "Example"⟩,
          shotNow := ⟨2024, 1, 2, 3, 4, 5⟩, shotSave := .ok () }
        "https://example.com" "scroll" none none =
      ({ url := "https://example.com", action := "scroll", success := true,
         message := none, extracted_text := none, title := none,
         screenshot := some (screenshotsDir ++ "/" ++
           ("screenshot_" ++ fmtTimestamp ⟨2024, 1, 2, 3, 4, 5⟩ ++ ".png")),
         error := none }, []) :=
  claim_C6_unknown_action_noop
    ⟨.ok (), .error "unused", .error "unused", "Example"⟩
    ⟨2024, 1, 2, 3, 4, 5⟩ "https://example.com" "scroll" none none
    (by decide) (by decide) (by decide) (by decide) rfl

/-- C7 counterexample.  The JSON text `5` decodes successfully, but the
    handler's `message.get(...)` raises `AttributeError` on a non-dict
    value, so no reply is sent for it (and the channel closes),
    refuting "for every message that decodes successfully, exactly one
    reply is sent". -/
theorem claim_C7_counterexample :
    handleWsMessage "ready" "2024-01-02T03:04:05" (.num 5) =
      .error "AttributeError: 'int' object has no attribute 'get'" ∧
    wsRepliesSent (handleWsMessage "ready" "2024-01-02T03:04:05" (.num 5)) = 0 :=
  ⟨rfl, rfl⟩

/-- C7 as amended.  A message that decodes to a JSON object gets
    exactly one reply, embedding the object's `message` field value
    (or `Unknown` when absent) rendered by Python `str`, the current
    status string and the timestamp; a message decoding to a non-object
    value (for example a bare number) gets no reply. -/
theorem claim_C7_object_reply (status now : String)
    (fields : List (String × JVal)) :
    handleWsMessage status now (.obj fields) =
      .ok { replyType := "luna_response",
            message := "🌙 Luna received: " ++
              pyStr ((fields.lookup "message").getD (.str "Unknown")),
            timestamp := now, status := status } ∧
    wsRepliesSent (handleWsMessage status now (.obj fields)) = 1 ∧
    ∀ n : Int, wsRepliesSent (handleWsMessage status now (.num n)) = 0 :=
  ⟨rfl, rfl, fun _ => rfl⟩

/-- Connection-count bookkeeping along a valid run: each step adds one
    on `wsConnect` and removes exactly one on an admissible
    `wsDisconnect`, so the final length plus the closes equals the
    initial length plus the opens. -/
theorem runOps_ws_length (ops : List AgentOp) :
    ∀ st : AgentState, validRun st ops = true →
    (runOps st ops).websocket_connections.length + wsCloses ops =
      st.websocket_connections.length + wsOpens ops := by
  induction ops with
  | nil => intro st _; simp [runOps, wsCloses, wsOpens]
  | cons op ops ih =>
      intro st h
      rw [validRun, Bool.and_eq_true] at h
      obtain ⟨h1, h2⟩ := h
      have hrec := ih (applyOp st op) h2
      have hrun : runOps st (op :: ops) = runOps (applyOp st op) ops := rfl
      rw [hrun]
      cases op with
      | wsConnect c =>
          simp only [wsOpens, wsCloses, applyOp] at hrec ⊢
          simp only [List.length_append, List.length_cons, List.length_nil] at hrec
          omega
      | wsDisconnect c =>
          have hmem : c ∈ st.websocket_connections :=
            of_decide_eq_true (by simpa [opOk] using h1)
          have hlen := List.length_erase_of_mem hmem
          have hpos : 0 < st.websocket_connections.length :=
            List.length_pos_of_mem hmem
          simp only [wsOpens, wsCloses, applyOp] at hrec ⊢
          rw [hlen] at hrec
          omega
      | screenshotCall fn now save =>
          simp only [wsOpens, wsCloses, applyOp] at hrec ⊢; omega
      | webAutomateCall url action sel val env =>
          simp only [wsOpens, wsCloses, applyOp] at hrec ⊢; omega
      | visionAnalyzeCall task env =>
          simp only [wsOpens, wsCloses, applyOp] at hrec ⊢; omega
      | statusCall ps now =>
          simp only [wsOpens, wsCloses, applyOp] at hrec ⊢; omega
      | appStartup dr ok =>
          simp only [wsOpens, wsCloses, applyOp] at hrec ⊢; omega

/-- C8.  Along every valid interleaving of operations from the initial
    state (each websocket removal targeting a currently-open
    connection, as the endpoint's `finally` does), the number of closes
    never exceeds the number of opens, and after N opens and M closes
    the connection list has exactly N - M entries. -/
theorem claim_C8_connection_count (ops : List AgentOp)
    (h : validRun initState ops = true) :
    wsCloses ops ≤ wsOpens ops ∧
    (runOps initState ops).websocket_connections.length =
      wsOpens ops - wsCloses ops := by
  have hlen := runOps_ws_length ops initState h
  rw [show initState.websocket_connections.length = 0 from rfl] at hlen
  exact ⟨by omega, by omega⟩

/-- C8 witness: two opens interleaved with one close leave one open
    connection. -/
theorem claim_C8_witness :
    wsCloses [AgentOp.wsConnect 1, AgentOp.wsConnect 2, AgentOp.wsDisconnect 1] ≤
      wsOpens [AgentOp.wsConnect 1, AgentOp.wsConnect 2, AgentOp.wsDisconnect 1] ∧
    (runOps initState
        [AgentOp.wsConnect 1, AgentOp.wsConnect 2,
         AgentOp.wsDisconnect 1]).websocket_connections.length =
      wsOpens [AgentOp.wsConnect 1, AgentOp.wsConnect 2, AgentOp.wsDisconnect 1] -
        wsCloses [AgentOp.wsConnect 1, AgentOp.wsConnect 2, AgentOp.wsDisconnect 1] :=
  claim_C8_connection_count
    [AgentOp.wsConnect 1, AgentOp.wsConnect 2, AgentOp.wsDisconnect 1]
    (by decide)

end Luna
